import Mathlib

/-!
Shallow embedding of `source/renderer/HWLightingModelRenderer.cpp` (0 A.D.):
the `ShaderModelDef` / `ShaderModel` data model and the five operations of
`ShaderModelVertexRenderer` (CreateModelData, UpdateModelData, UploadModelData,
PrepareModelDef, RenderModel).  The `VertexArray` collaborator and the
`ModelRenderer::Build*` routines live outside this fragment and are modelled
from the specification where noted.  All `size_t` arithmetic where wraparound
matters is taken modulo `2 ^ 64`.
-/

set_option linter.unusedVariables false

namespace HWLighting

/-- Vertex attribute formats used by this renderer
(`Renderer::Backend::Format`). -/
inductive Format where
  | R32G32_SFLOAT
  | R32G32B32_SFLOAT
  | R32G32B32A32_SFLOAT
deriving DecidableEq

/-- Byte size of one attribute of the given format (two, three or four
32-bit floats). -/
def Format.attributeSize : Format → Nat
  | Format.R32G32_SFLOAT => 8
  | Format.R32G32B32_SFLOAT => 12
  | Format.R32G32B32A32_SFLOAT => 16

/-- One `VertexArray::Attribute`: a format plus the byte offset assigned by
the layout pass. -/
structure Attribute where
  format : Format
  offset : Nat
deriving DecidableEq

/-- Round a byte count up to a multiple of 4. -/
def align4 (n : Nat) : Nat := ((n + 3) / 4) * 4

/-- Modelled from the spec: the missing `VertexArray::Layout` collaborator.
The spec fixes its observable outputs on this renderer's attribute lists
(stride 32 with Position at byte offset 16 and Normal at byte offset 0 for
the dynamic two-attribute array; packed 2-float UV channels for the static
array), which sequential packing in reverse order of addition with 4-byte
alignment reproduces.  Returns the computed stride and the attributes with
their assigned offsets, in addition order. -/
def assignOffsets : List Attribute → Nat × List Attribute
  | [] => (0, [])
  | a :: rest =>
    let tail := assignOffsets rest
    (align4 (tail.fst + a.format.attributeSize),
      Attribute.mk a.format tail.fst :: tail.snd)

/-- The model definition collaborator (`CModelDef`): immutable shape
description exposing vertex count, face count and UV-channel count. -/
structure CModelDef where
  numVertices : Nat
  numFaces : Nat
  numUVsPerVertex : Nat
deriving DecidableEq

/-- A model instance (`CModel`): its definition plus an abstract pose that
drives the CPU skinning collaborator. -/
structure CModel where
  mdef : CModelDef
  pose : Nat
deriving DecidableEq

/-- Modelled from the spec: the missing `ModelRenderer::BuildUV` collaborator
fills one 2-component UV entry per vertex of the definition for the given
channel. -/
def buildUV (mdef : CModelDef) (channel : Nat) : List (Nat × Nat) :=
  (List.range mdef.numVertices).map (fun v => (channel, v))

/-- Modelled from the spec: the missing `ModelRenderer::BuildIndices`
collaborator emits a triangle list, three indices per face of the
definition. -/
def buildIndices (mdef : CModelDef) : List Nat :=
  (List.range mdef.numFaces).flatMap (fun f => [3 * f, 3 * f + 1, 3 * f + 2])

/-- Modelled from the spec: the missing
`ModelRenderer::BuildPositionAndNormals` collaborator recomputes position and
normal for every vertex of the instance from its current pose. -/
def buildPositionAndNormals (model : CModel) : List (Nat × Nat) :=
  (List.range model.mdef.numVertices).map (fun v => (model.pose, v))

/-- Modulus of `size_t` arithmetic (64-bit build). -/
def sizeTMod : Nat := 2 ^ 64

/-- `MODEL_VERTEX_ATTRIBUTE_STRIDE` from the anonymous namespace. -/
def MODEL_VERTEX_ATTRIBUTE_STRIDE : Nat := 32

/-- `MODEL_VERTEX_ATTRIBUTE_POSITION_OFFSET` from the anonymous namespace. -/
def MODEL_VERTEX_ATTRIBUTE_POSITION_OFFSET : Nat := 16

/-- `MODEL_VERTEX_ATTRIBUTE_NORMAL_OFFSET` from the anonymous namespace. -/
def MODEL_VERTEX_ATTRIBUTE_NORMAL_OFFSET : Nat := 0

/-- `Renderer::Backend::VertexAttributeStream` members used here. -/
inductive VertexAttributeStream where
  | UV0
  | UV1
  | POSITION
  | NORMAL
deriving DecidableEq

/-- `Renderer::Backend::VertexAttributeRate` (only PER_VERTEX occurs). -/
inductive VertexAttributeRate where
  | PER_VERTEX
deriving DecidableEq

/-- `Renderer::Backend::SVertexAttributeFormat`: one entry of a
vertex-input-layout description. -/
structure SVertexAttributeFormat where
  stream : VertexAttributeStream
  format : Format
  offset : Nat
  stride : Nat
  rate : VertexAttributeRate
  bindingSlot : Nat
deriving DecidableEq

/-- Ways an operation of this component can fail: an `ENSURE` assertion that
halts, a dereference of a null pointer with no assertion guarding it, or an
out-of-bounds `std::vector` access. -/
inductive RenderFailure where
  | assertFailure
  | nullDeref
  | oobAccess
deriving DecidableEq

/-- `ShaderModelDef`: the per-definition cache entry.  Holds the static UV
vertex array (`m_Array`), the shared index array (`m_IndexArray`), the UV
attribute list (`m_UVs`) and the vertex-input layout.  The `pendingUpload`
flags model the state left by `VertexArray::Upload()` and cleared by
`UploadIfNeeded`; the `bufferId` fields give the identity of the backend
buffers; the `offset` fields model `VertexArray::GetOffset()` (0 for a
dedicated buffer). -/
structure ShaderModelDef where
  uvAttrs : List Attribute
  arrayNumVertices : Nat
  arrayStride : Nat
  uvContents : List (List (Nat × Nat))
  arrayPendingUpload : Bool
  arrayBufferId : Nat
  arrayOffset : Nat
  indexNumVertices : Nat
  indexContents : List Nat
  indexPendingUpload : Bool
  indexBufferId : Nat
  indexOffset : Nat
  vertexInputLayout : List SVertexAttributeFormat
deriving DecidableEq

/-- Lines 93-116 of the constructor: assemble the vertex-input-layout
attribute list.  `m_UVs[0]` is read unconditionally (out of bounds when the
UV list is empty), and `m_UVs[1]` is read when the definition reports two or
more UV channels. -/
def makeVertexInputLayout (uvAttrs : List Attribute) (stride : Nat)
    (numUVs : Nat) : Except RenderFailure (List SVertexAttributeFormat) :=
  match uvAttrs with
  | [] => Except.error RenderFailure.oobAccess
  | uv0 :: rest =>
    let base : List SVertexAttributeFormat :=
      [SVertexAttributeFormat.mk VertexAttributeStream.UV0 uv0.format
          uv0.offset stride VertexAttributeRate.PER_VERTEX 0,
        SVertexAttributeFormat.mk VertexAttributeStream.POSITION
          Format.R32G32B32_SFLOAT MODEL_VERTEX_ATTRIBUTE_POSITION_OFFSET
          MODEL_VERTEX_ATTRIBUTE_STRIDE VertexAttributeRate.PER_VERTEX 1,
        SVertexAttributeFormat.mk VertexAttributeStream.NORMAL
          Format.R32G32B32_SFLOAT MODEL_VERTEX_ATTRIBUTE_NORMAL_OFFSET
          MODEL_VERTEX_ATTRIBUTE_STRIDE VertexAttributeRate.PER_VERTEX 1]
    if 2 ≤ numUVs then
      match rest with
      | [] => Except.error RenderFailure.oobAccess
      | uv1 :: _ =>
        Except.ok (base ++
          [SVertexAttributeFormat.mk VertexAttributeStream.UV1 uv1.format
            uv1.offset stride VertexAttributeRate.PER_VERTEX 0])
    else
      Except.ok base

/-- The `ShaderModelDef::ShaderModelDef(mdef)` constructor: one R32G32 UV
attribute per channel is added to the static array, the array is sized to
the vertex count and laid out, each channel's backing store is filled by
`BuildUV`, and the array is uploaded; the index array is sized to
`numFaces * 3` (`size_t`), filled by `BuildIndices` and uploaded; finally
the vertex-input layout is assembled (reading `m_UVs[0]`
unconditionally).  `uvBufferId` and `indexBufferId` are the identities of
the two freshly allocated backend buffers. -/
def ShaderModelDef.make (mdef : CModelDef) (uvBufferId indexBufferId : Nat) :
    Except RenderFailure ShaderModelDef :=
  let uvAttrsInit : List Attribute :=
    List.replicate mdef.numUVsPerVertex
      (Attribute.mk Format.R32G32_SFLOAT 0)
  let layouted := assignOffsets uvAttrsInit
  let stride := layouted.fst
  let uvAttrs := layouted.snd
  let uvContents :=
    (List.range mdef.numUVsPerVertex).map (fun ch => buildUV mdef ch)
  let numIndices := (mdef.numFaces * 3) % sizeTMod
  let indexContents := buildIndices mdef
  match makeVertexInputLayout uvAttrs stride mdef.numUVsPerVertex with
  | Except.error e => Except.error e
  | Except.ok layout =>
    Except.ok (ShaderModelDef.mk uvAttrs mdef.numVertices stride uvContents
      true uvBufferId 0 numIndices indexContents true indexBufferId 0 layout)

/-- `ShaderModel`: the per-instance render data.  Holds the dynamic vertex
array with its Position and Normal attribute offsets, the computed stride,
the CPU backing store (`contents`, one position/normal entry per vertex),
the last-transferred GPU copy, the pending-upload mark set by
`VertexArray::Upload()` and cleared by `UploadIfNeeded`, and the
prepared-for-rendering mark set by `PrepareForRendering`. -/
structure ShaderModel where
  key : Nat
  positionOffset : Nat
  normalOffset : Nat
  stride : Nat
  numVertices : Nat
  bufferId : Nat
  bufferOffset : Nat
  contents : List (Nat × Nat)
  gpuContents : List (Nat × Nat)
  pendingUpload : Bool
  prepared : Bool
deriving DecidableEq

/-- Lines 170-181 of `CreateModelData`: allocate the `ShaderModel`, add the
Position then the Normal attribute (both `R32G32B32A32_SFLOAT`), size the
dynamic array to the definition's vertex count and lay it out. -/
def buildShaderModel (key : Nat) (mdef : CModelDef) (bufferId : Nat) :
    ShaderModel :=
  let posAttr := Attribute.mk Format.R32G32B32A32_SFLOAT 0
  let normAttr := Attribute.mk Format.R32G32B32A32_SFLOAT 0
  let layouted := assignOffsets [posAttr, normAttr]
  let attrs := layouted.snd
  ShaderModel.mk key (attrs.getD 0 posAttr).offset (attrs.getD 1 normAttr).offset
    layouted.fst mdef.numVertices bufferId 0 [] [] false false

/-- The six `ENSURE` checks of `CreateModelData` (lines 184-193): 16-byte
alignment of both offsets and of the stride, and equality with the three
fixed `MODEL_VERTEX_ATTRIBUTE_*` constants. -/
def createModelDataAsserts (sm : ShaderModel) : Bool :=
  sm.positionOffset % 16 == 0 && sm.normalOffset % 16 == 0 &&
  sm.stride % 16 == 0 &&
  sm.stride == MODEL_VERTEX_ATTRIBUTE_STRIDE &&
  sm.positionOffset == MODEL_VERTEX_ATTRIBUTE_POSITION_OFFSET &&
  sm.normalOffset == MODEL_VERTEX_ATTRIBUTE_NORMAL_OFFSET

/-- Modelled from the spec: the vertices-changed bit of the update-flags
word tested by `UpdateModelData` (`RENDERDATA_UPDATE_VERTICES`, declared
outside this fragment). -/
def RENDERDATA_UPDATE_VERTICES : Nat := 2

/-- Commands recorded against the `IDeviceCommandContext` collaborator. -/
inductive DeviceCommand where
  | uploadBuffer (bufferId : Nat)
  | setVertexInputLayout (layout : List SVertexAttributeFormat)
  | setVertexBuffer (slot : Nat) (bufferId : Nat) (firstVertexOffset : Nat)
  | setIndexBuffer (bufferId : Nat)
  | drawIndexedInRange (firstIndex : Nat) (indexCount : Nat) (start : Nat)
      (lastVertex : Nat)
deriving DecidableEq

/-- State threaded through the renderer's operations: the render-data slot
that `GetRenderData(m)` / `SetRenderData` expose on the model definition in
play, the renderer's own `m->shadermodeldef` back-reference, a fresh-buffer
allocator, the construction-counter stub for `ShaderModelDef`, and the two
global stats counters `g_Renderer.m_Stats.m_DrawCalls` /
`m_ModelTris`. -/
structure RendererState where
  defSlot : Option ShaderModelDef
  preparedDef : Option ShaderModelDef
  nextBufferId : Nat
  defConstructions : Nat
  statsDrawCalls : Nat
  statsModelTris : Nat
deriving DecidableEq

/-- `ShaderModelVertexRenderer::CreateModelData` (lines 158-196): look up the
cached `ShaderModelDef`, constructing and caching it when absent; then build
the per-instance `ShaderModel` and run the six `ENSURE` checks. -/
def CreateModelData (key : Nat) (model : CModel) (s : RendererState) :
    Except RenderFailure (RendererState × ShaderModel) :=
  let mdef := model.mdef
  let cached : Except RenderFailure (RendererState × ShaderModelDef) :=
    match s.defSlot with
    | some d => Except.ok (s, d)
    | none =>
      match ShaderModelDef.make mdef s.nextBufferId (s.nextBufferId + 1) with
      | Except.error e => Except.error e
      | Except.ok d =>
        Except.ok ({ s with
          defSlot := some d,
          nextBufferId := s.nextBufferId + 2,
          defConstructions := s.defConstructions + 1 }, d)
  match cached with
  | Except.error e => Except.error e
  | Except.ok (s1, _) =>
    let sm := buildShaderModel key mdef s1.nextBufferId
    let s2 := { s1 with nextBufferId := s1.nextBufferId + 1 }
    if createModelDataAsserts sm then
      Except.ok (s2, sm)
    else
      Except.error RenderFailure.assertFailure

/-- `ShaderModelVertexRenderer::UpdateModelData` (lines 200-217): when the
vertices-changed flag is set, rebuild every vertex via
`BuildPositionAndNormals` and mark the array for upload; in either case
prepare the array for rendering. -/
def UpdateModelData (model : CModel) (data : ShaderModel)
    (updateflags : Nat) : ShaderModel :=
  let d1 :=
    if updateflags &&& RENDERDATA_UPDATE_VERTICES ≠ 0 then
      { data with
        contents := buildPositionAndNormals model,
        pendingUpload := true }
    else
      data
  { d1 with prepared := true }

/-- `ShaderModelVertexRenderer::UploadModelData` (lines 219-232):
`ENSURE` the cached definition is present, then `UploadIfNeeded` the
definition's static UV array, its index array, and the instance's dynamic
array — each transfers only when its pending-upload mark is set, and
clears the mark.  Returns the state, the instance data, and the transfer
commands issued. -/
def UploadModelData (model : CModel) (data : ShaderModel)
    (s : RendererState) :
    Except RenderFailure (RendererState × ShaderModel × List DeviceCommand) :=
  match s.defSlot with
  | none => Except.error RenderFailure.assertFailure
  | some d =>
    let arrayCmds :=
      if d.arrayPendingUpload then [DeviceCommand.uploadBuffer d.arrayBufferId]
      else []
    let indexCmds :=
      if d.indexPendingUpload then [DeviceCommand.uploadBuffer d.indexBufferId]
      else []
    let d1 := { d with
      arrayPendingUpload := false,
      indexPendingUpload := false }
    let dataCmds :=
      if data.pendingUpload then [DeviceCommand.uploadBuffer data.bufferId]
      else []
    let data1 := { data with
      pendingUpload := false,
      gpuContents := if data.pendingUpload then data.contents
        else data.gpuContents }
    Except.ok ({ s with defSlot := some d1 }, data1,
      arrayCmds ++ indexCmds ++ dataCmds)

/-- `ShaderModelVertexRenderer::PrepareModelDef` (lines 235-250): fetch the
cached definition into `m->shadermodeldef`, `ENSURE` it is present, set the
vertex-input layout, and bind the definition's static array to stream
slot 0. -/
def PrepareModelDef (s : RendererState) :
    Except RenderFailure (RendererState × List DeviceCommand) :=
  match s.defSlot with
  | none => Except.error RenderFailure.assertFailure
  | some d =>
    let stride := d.arrayStride
    let firstVertexOffset := d.arrayOffset * stride
    Except.ok ({ s with preparedDef := some d },
      [DeviceCommand.setVertexInputLayout d.vertexInputLayout,
        DeviceCommand.setVertexBuffer 0 d.arrayBufferId firstVertexOffset])

/-- `ShaderModelVertexRenderer::RenderModel` (lines 253-276): bind the
instance's dynamic array to stream slot 1, bind the cached definition's
index buffer (dereferencing `m->shadermodeldef` with no `ENSURE`), issue one
indexed draw over `numFaces * 3` indices with vertex range
`[0, numVertices - 1]` (`size_t` arithmetic), and bump the two global
stats counters. -/
def RenderModel (model : CModel) (data : ShaderModel) (s : RendererState) :
    Except RenderFailure (RendererState × List DeviceCommand) :=
  let mdldef := model.mdef
  let stride := data.stride
  let firstVertexOffset := data.bufferOffset * stride
  match s.preparedDef with
  | none => Except.error RenderFailure.nullDeref
  | some d =>
    let numberOfFaces := mdldef.numFaces
    Except.ok ({ s with
        statsDrawCalls := s.statsDrawCalls + 1,
        statsModelTris := s.statsModelTris + numberOfFaces },
      [DeviceCommand.setVertexBuffer 1 data.bufferId firstVertexOffset,
        DeviceCommand.setIndexBuffer d.indexBufferId,
        DeviceCommand.drawIndexedInRange d.indexOffset
          ((numberOfFaces * 3) % sizeTMod) 0
          ((mdldef.numVertices + (sizeTMod - 1)) % sizeTMod)])

/-- The construction-time fields of a `ShaderModelDef`: everything except
the transient pending-upload marks.  Used to state that no operation after
construction mutates the cached definition. -/
def ShaderModelDef.staticContent (d : ShaderModelDef) :
    List Attribute × Nat × Nat × List (List (Nat × Nat)) × Nat × Nat ×
      Nat × List Nat × Nat × Nat × List SVertexAttributeFormat :=
  (d.uvAttrs, d.arrayNumVertices, d.arrayStride, d.uvContents,
    d.arrayBufferId, d.arrayOffset, d.indexNumVertices, d.indexContents,
    d.indexBufferId, d.indexOffset, d.vertexInputLayout)

/-- Whether an `Except` result is a success. -/
def exceptOk {ε α : Type} : Except ε α → Bool
  | Except.ok _ => true
  | Except.error _ => false

/-- A small concrete definition: 4 vertices, 2 faces, 1 UV channel (the
end-to-end example of the specification). -/
def exampleDef : CModelDef := CModelDef.mk 4 2 1

/-- A concrete instance of `exampleDef`. -/
def exampleModel : CModel := CModel.mk exampleDef 7

/-- A concrete definition with no UV channel. -/
def noUVDef : CModelDef := CModelDef.mk 4 2 0

/-- A concrete definition with zero vertices (one face, one UV channel). -/
def zeroVertexDef : CModelDef := CModelDef.mk 0 1 1

/-- A concrete instance of `zeroVertexDef`. -/
def zeroVertexModel : CModel := CModel.mk zeroVertexDef 0

/-- The renderer state right after construction: empty render-data slot,
null `m->shadermodeldef`, zeroed counters. -/
def initialState : RendererState :=
  RendererState.mk Option.none Option.none 0 0 0 0

/-- A concrete cached `ShaderModelDef` (as built for `exampleDef`, with the
UV array in buffer 0 and the index array in buffer 1). -/
def exampleShaderDef : ShaderModelDef :=
  ShaderModelDef.mk [Attribute.mk Format.R32G32_SFLOAT 0] 4 8
    [[(0, 0), (0, 1), (0, 2), (0, 3)]] true 0 0 6 [0, 1, 2, 3, 4, 5] true 1 0
    []

/-- A concrete per-instance `ShaderModel` using buffer 2. -/
def exampleData : ShaderModel :=
  ShaderModel.mk 0 16 0 32 4 2 0 [] [] true false

/-- A state in which `exampleShaderDef` is cached on the definition and has
been prepared. -/
def preparedState : RendererState :=
  RendererState.mk (some exampleShaderDef) (some exampleShaderDef) 3 1 0 0

/-- Conclusion of the sizing property of the `ShaderModelDef` constructor:
it succeeds, its index buffer holds exactly `3 * numFaces` indices (both as
the declared size and as the built contents), and its static UV array holds
exactly `numVertices` 2-component entries per UV channel. -/
def MakeSizesProp (mdef : CModelDef) (a b : Nat) : Prop :=
  ∃ d, ShaderModelDef.make mdef a b = Except.ok d ∧
    d.indexNumVertices = 3 * mdef.numFaces ∧
    d.indexContents.length = 3 * mdef.numFaces ∧
    d.uvContents.length = mdef.numUVsPerVertex ∧
    (∀ ch ∈ d.uvContents, ch.length = mdef.numVertices) ∧
    d.uvAttrs.length = mdef.numUVsPerVertex ∧
    (∀ attr ∈ d.uvAttrs, attr.format = Format.R32G32_SFLOAT) ∧
    d.arrayNumVertices = mdef.numVertices

/-- Conclusion of the upload idempotence property: the first call succeeds,
transfers each backend buffer at most once, and a second call with no
intervening modification transfers nothing and leaves every state component
unchanged. -/
def UploadIdemProp (model : CModel) (data : ShaderModel)
    (s : RendererState) : Prop :=
  ∃ s1 data1 cmds1,
    UploadModelData model data s = Except.ok (s1, data1, cmds1) ∧
    (∀ bid, cmds1.countP
      (fun c => decide (c = DeviceCommand.uploadBuffer bid)) ≤ 1) ∧
    UploadModelData model data1 s1 = Except.ok (s1, data1, [])

/-- Conclusion of the cache-reuse property: both `CreateModelData` calls
succeed, exactly one `ShaderModelDef` is constructed over the pair (the
second call leaves the construction counter and the cached slot untouched),
and the two returned instances are distinct objects with distinct dynamic
buffers. -/
def CacheReuseProp (k1 k2 : Nat) (m1 m2 : CModel) (s : RendererState) :
    Prop :=
  ∃ s1 sm1 s2 sm2,
    CreateModelData k1 m1 s = Except.ok (s1, sm1) ∧
    CreateModelData k2 m2 s1 = Except.ok (s2, sm2) ∧
    s1.defConstructions = s.defConstructions + 1 ∧
    s2.defConstructions = s.defConstructions + 1 ∧
    s2.defSlot = s1.defSlot ∧
    sm1.bufferId ≠ sm2.bufferId ∧
    sm1 ≠ sm2

/-- Conclusion of the definition-immutability property: `UploadModelData`
leaves every construction-time field of the cached `ShaderModelDef` equal
(clearing only the transient pending-upload marks), `PrepareModelDef` and
`RenderModel` leave the cached definition itself in the slot.
(`UpdateModelData` maps the instance data alone and cannot touch the cache
by its very signature.) -/
def DefImmutableProp (model : CModel) (data : ShaderModel)
    (s : RendererState) (d : ShaderModelDef) : Prop :=
  (∃ s1 data1 cmds1,
    UploadModelData model data s = Except.ok (s1, data1, cmds1) ∧
    ∃ d1, s1.defSlot = some d1 ∧
      ShaderModelDef.staticContent d1 = ShaderModelDef.staticContent d) ∧
  (∃ s2 cmds2, PrepareModelDef s = Except.ok (s2, cmds2) ∧
    s2.defSlot = some d) ∧
  (∀ d0, s.preparedDef = some d0 →
    ∃ s3 cmds3, RenderModel model data s = Except.ok (s3, cmds3) ∧
      s3.defSlot = some d ∧ s3.preparedDef = some d0)

/-- The full per-frame sequence (create, update with the vertices-changed
flag, upload, prepare, render) run on the zero-vertex definition
`zeroVertexDef` from the freshly constructed renderer state. -/
def zeroPipeline : Except RenderFailure (RendererState × List DeviceCommand) :=
  match CreateModelData 0 zeroVertexModel initialState with
  | Except.error e => Except.error e
  | Except.ok (s1, sm) =>
    let sm1 := UpdateModelData zeroVertexModel sm RENDERDATA_UPDATE_VERTICES
    match UploadModelData zeroVertexModel sm1 s1 with
    | Except.error e => Except.error e
    | Except.ok (s2, sm2, _) =>
      match PrepareModelDef s2 with
      | Except.error e => Except.error e
      | Except.ok (s3, _) => RenderModel zeroVertexModel sm2 s3

/-- The layout pass preserves the number of attributes. -/
theorem assignOffsets_length (l : List Attribute) :
    (assignOffsets l).snd.length = l.length := by
  induction l with
  | nil => rfl
  | cons a rest ih => simp [assignOffsets, ih]

/-- The layout pass preserves each attribute's format. -/
theorem assignOffsets_format (fmt : Format) (l : List Attribute)
    (h : ∀ a ∈ l, a.format = fmt) :
    ∀ a ∈ (assignOffsets l).snd, a.format = fmt := by
  induction l with
  | nil => intro a ha; simp [assignOffsets] at ha
  | cons b rest ih =>
    intro a ha
    simp only [assignOffsets, List.mem_cons] at ha
    rcases ha with h1 | h2
    · rw [h1]; exact h b (List.mem_cons_self b rest)
    · exact ih (fun x hx => h x (List.mem_cons_of_mem b hx)) a h2

/-- A successful `Except` value is an `ok`. -/
theorem exceptOk_exists {ε α : Type} (e : Except ε α)
    (h : exceptOk e = true) : ∃ v, e = Except.ok v := by
  cases e with
  | ok v => exact ⟨v, rfl⟩
  | error err => simp [exceptOk] at h

/-- Assembling the vertex-input layout succeeds whenever the UV attribute
list is as long as the reported channel count and at least one channel
exists. -/
theorem makeVertexInputLayout_isOk (uvAttrs : List Attribute)
    (stride numUVs : Nat) (hlen : uvAttrs.length = numUVs)
    (h1 : 1 ≤ numUVs) :
    exceptOk (makeVertexInputLayout uvAttrs stride numUVs) = true := by
  cases uvAttrs with
  | nil => simp at hlen; omega
  | cons uv0 rest =>
    by_cases h2 : 2 ≤ numUVs
    · cases rest with
      | nil => simp at hlen; omega
      | cons uv1 rest2 => simp [makeVertexInputLayout, h2, exceptOk]
    · simp [makeVertexInputLayout, h2, exceptOk]

/-- Every failure of the layout-assembly step is the out-of-bounds
`m_UVs` access. -/
theorem makeVertexInputLayout_error_eq (uvAttrs : List Attribute)
    (stride numUVs : Nat) (e : RenderFailure)
    (h : makeVertexInputLayout uvAttrs stride numUVs = Except.error e) :
    e = RenderFailure.oobAccess := by
  unfold makeVertexInputLayout at h
  cases uvAttrs with
  | nil => exact (Except.error.inj h).symm
  | cons uv0 rest =>
    by_cases h2 : 2 ≤ numUVs
    · cases rest with
      | nil => simp [h2] at h; exact h.symm
      | cons uv1 rest2 => simp [h2] at h
    · simp [h2] at h

/-- The `ShaderModelDef` constructor succeeds whenever the definition has at
least one UV channel. -/
theorem ShaderModelDef.make_isOk (mdef : CModelDef) (a b : Nat)
    (hUV : 1 ≤ mdef.numUVsPerVertex) :
    exceptOk (ShaderModelDef.make mdef a b) = true := by
  have hok := makeVertexInputLayout_isOk
    (assignOffsets (List.replicate mdef.numUVsPerVertex
      (Attribute.mk Format.R32G32_SFLOAT 0))).snd
    (assignOffsets (List.replicate mdef.numUVsPerVertex
      (Attribute.mk Format.R32G32_SFLOAT 0))).fst
    mdef.numUVsPerVertex
    (by rw [assignOffsets_length, List.length_replicate]) hUV
  obtain ⟨l, hl⟩ := exceptOk_exists _ hok
  simp only [ShaderModelDef.make]
  rw [hl]
  rfl

/-- The `ShaderModelDef` constructor succeeds (with some cached definition)
whenever the definition has at least one UV channel. -/
theorem ShaderModelDef.make_some (mdef : CModelDef) (a b : Nat)
    (hUV : 1 ≤ mdef.numUVsPerVertex) :
    ∃ d, ShaderModelDef.make mdef a b = Except.ok d :=
  exceptOk_exists _ (ShaderModelDef.make_isOk mdef a b hUV)

/-- Every failure of the `ShaderModelDef` constructor is the out-of-bounds
`m_UVs` access. -/
theorem ShaderModelDef.make_error_eq (mdef : CModelDef) (a b : Nat)
    (e : RenderFailure)
    (h : ShaderModelDef.make mdef a b = Except.error e) :
    e = RenderFailure.oobAccess := by
  simp only [ShaderModelDef.make] at h
  rcases hm : makeVertexInputLayout
      (assignOffsets (List.replicate mdef.numUVsPerVertex
        (Attribute.mk Format.R32G32_SFLOAT 0))).snd
      (assignOffsets (List.replicate mdef.numUVsPerVertex
        (Attribute.mk Format.R32G32_SFLOAT 0))).fst
      mdef.numUVsPerVertex with e' | l
  · rw [hm] at h
    injection h with h2
    rw [← h2]
    exact makeVertexInputLayout_error_eq _ _ _ _ hm
  · rw [hm] at h
    simp at h

/-- Three generated indices per face. -/
theorem range_flat3_length (n : Nat) :
    ((List.range n).flatMap
      (fun f => [3 * f, 3 * f + 1, 3 * f + 2])).length = 3 * n := by
  induction n with
  | zero => rfl
  | succ m ih =>
    rw [List.range_succ, List.flatMap_append]
    simp [ih]
    omega

/-- `BuildUV` fills one entry per vertex. -/
theorem buildUV_length (mdef : CModelDef) (channel : Nat) :
    (buildUV mdef channel).length = mdef.numVertices := by
  simp [buildUV]

/-- `BuildPositionAndNormals` recomputes one entry per vertex. -/
theorem buildPositionAndNormals_length (model : CModel) :
    (buildPositionAndNormals model).length = model.mdef.numVertices := by
  simp [buildPositionAndNormals]

/-- The six `ENSURE` checks of `CreateModelData` evaluate to true on every
dynamic array the renderer builds: the layout pass puts Normal at offset 0,
Position at offset 16 and the stride at 32 for the fixed two-attribute
list, independently of the model definition. -/
theorem createModelDataAsserts_true (k : Nat) (md : CModelDef) (bid : Nat) :
    createModelDataAsserts (buildShaderModel k md bid) = true := by
  simp [createModelDataAsserts, buildShaderModel, assignOffsets, align4,
    Format.attributeSize, MODEL_VERTEX_ATTRIBUTE_STRIDE,
    MODEL_VERTEX_ATTRIBUTE_POSITION_OFFSET,
    MODEL_VERTEX_ATTRIBUTE_NORMAL_OFFSET]

/-- `size_t` evaluation of `numVertices - 1` for a nonzero in-range vertex
count. -/
theorem sizeT_pred_eq (v : Nat) (h1 : 1 ≤ v) (h2 : v ≤ sizeTMod) :
    (v + (sizeTMod - 1)) % sizeTMod = v - 1 := by
  have hz : 0 < sizeTMod := by norm_num [sizeTMod]
  have he : v + (sizeTMod - 1) = (v - 1) + 1 * sizeTMod := by omega
  rw [he, Nat.add_mul_mod_self_right, Nat.mod_eq_of_lt (by omega)]

/-- C1: for every model with `F` faces and `V ≥ 1` vertices (and a prepared
cached definition), `RenderModel` issues exactly one indexed draw with index
count `F * 3` and vertex range `[0, V - 1]`, binds the instance's dynamic
buffer to stream slot 1 and the cached definition's index buffer, and
increments the global draw-call counter by 1 and the global triangle
counter by `F`. -/
theorem RenderModel_draw (model : CModel) (data : ShaderModel)
    (s : RendererState) (d : ShaderModelDef)
    (hprep : s.preparedDef = some d)
    (hV : 1 ≤ model.mdef.numVertices)
    (hVsz : model.mdef.numVertices ≤ sizeTMod)
    (hF : model.mdef.numFaces * 3 < sizeTMod) :
    RenderModel model data s =
      Except.ok ({ s with
          statsDrawCalls := s.statsDrawCalls + 1,
          statsModelTris := s.statsModelTris + model.mdef.numFaces },
        [DeviceCommand.setVertexBuffer 1 data.bufferId
            (data.bufferOffset * data.stride),
          DeviceCommand.setIndexBuffer d.indexBufferId,
          DeviceCommand.drawIndexedInRange d.indexOffset
            (model.mdef.numFaces * 3) 0 (model.mdef.numVertices - 1)]) := by
  simp only [RenderModel, hprep]
  rw [Nat.mod_eq_of_lt hF, sizeT_pred_eq _ hV hVsz]

/-- Witness for C1 at the spec's end-to-end example (4 vertices, 2 faces,
1 UV channel): indexCount 6, vertex range `[0, 3]`, counters bumped by 1
and 2. -/
theorem RenderModel_draw_witness :
    preparedState.preparedDef = some exampleShaderDef ∧
    1 ≤ exampleModel.mdef.numVertices ∧
    exampleModel.mdef.numVertices ≤ sizeTMod ∧
    exampleModel.mdef.numFaces * 3 < sizeTMod ∧
    RenderModel exampleModel exampleData preparedState =
      Except.ok (RendererState.mk (some exampleShaderDef)
          (some exampleShaderDef) 3 1 1 2,
        [DeviceCommand.setVertexBuffer 1 2 0,
          DeviceCommand.setIndexBuffer 1,
          DeviceCommand.drawIndexedInRange 0 6 0 3]) :=
  ⟨rfl, by decide, by decide, by decide,
    RenderModel_draw exampleModel exampleData preparedState exampleShaderDef
      rfl (by decide) (by decide) (by decide)⟩

/-- C3: for every model definition, the per-instance dynamic array built by
`CreateModelData` (Position added first, then Normal, both 4-component
floats) gets stride 32, Position offset 16 and Normal offset 0 from the
layout pass, so the six `ENSURE` checks always pass and `CreateModelData`
never fails with an assertion. -/
theorem CreateModelData_layout (key : Nat) (model : CModel)
    (s : RendererState) (bufferId : Nat) :
    (buildShaderModel key model.mdef bufferId).stride =
      MODEL_VERTEX_ATTRIBUTE_STRIDE ∧
    (buildShaderModel key model.mdef bufferId).positionOffset =
      MODEL_VERTEX_ATTRIBUTE_POSITION_OFFSET ∧
    (buildShaderModel key model.mdef bufferId).normalOffset =
      MODEL_VERTEX_ATTRIBUTE_NORMAL_OFFSET ∧
    createModelDataAsserts (buildShaderModel key model.mdef bufferId) =
      true ∧
    CreateModelData key model s ≠ Except.error RenderFailure.assertFailure := by
  have hassert := createModelDataAsserts_true
  refine ⟨rfl, rfl, rfl, createModelDataAsserts_true key model.mdef bufferId,
    ?_⟩
  intro hbad
  simp only [CreateModelData] at hbad
  rcases hs : s.defSlot with _ | d
  · rw [hs] at hbad
    rcases hm : ShaderModelDef.make model.mdef s.nextBufferId
        (s.nextBufferId + 1) with e | dd
    · rw [hm] at hbad
      simp only [] at hbad
      have hoob : e = RenderFailure.oobAccess :=
        ShaderModelDef.make_error_eq _ _ _ _ hm
      rw [hoob] at hbad
      simp at hbad
    · rw [hm] at hbad
      simp [hassert] at hbad
  · rw [hs] at hbad
    simp [hassert] at hbad

/-- C6: with the vertices-changed flag unset, `UpdateModelData` performs no
CPU rebuild and no upload — the instance's contents, GPU copy and
pending-upload mark are exactly as before, only the prepared-for-binding
mark is set; with the flag set it rebuilds every vertex and marks the
array for re-upload. -/
theorem UpdateModelData_vertices_flag (model : CModel) (data : ShaderModel)
    (updateflags : Nat) :
    (updateflags &&& RENDERDATA_UPDATE_VERTICES = 0 →
      UpdateModelData model data updateflags =
        { data with prepared := true }) ∧
    (updateflags &&& RENDERDATA_UPDATE_VERTICES ≠ 0 →
      UpdateModelData model data updateflags =
        { data with
          contents := buildPositionAndNormals model,
          pendingUpload := true,
          prepared := true } ∧
      (buildPositionAndNormals model).length = model.mdef.numVertices) := by
  constructor
  · intro h0
    simp [UpdateModelData, h0]
  · intro h1
    exact ⟨by simp [UpdateModelData, h1],
      buildPositionAndNormals_length model⟩

/-- Witness for C6 at the example fixtures, with the flag clear (0) and set
(the flag bit itself). -/
theorem UpdateModelData_vertices_flag_witness :
    (UpdateModelData exampleModel exampleData 0 =
      { exampleData with prepared := true }) ∧
    (UpdateModelData exampleModel exampleData RENDERDATA_UPDATE_VERTICES =
      { exampleData with
        contents := buildPositionAndNormals exampleModel,
        pendingUpload := true,
        prepared := true } ∧
      (buildPositionAndNormals exampleModel).length =
        exampleModel.mdef.numVertices) :=
  ⟨(UpdateModelData_vertices_flag exampleModel exampleData 0).1 (by decide),
    (UpdateModelData_vertices_flag exampleModel exampleData
      RENDERDATA_UPDATE_VERTICES).2 (by decide)⟩

/-- C10: the `ShaderModelDef` constructor reads `m_UVs[0]` unconditionally,
so it performs an out-of-bounds access exactly on the definitions reporting
zero UV channels; construction is well-defined precisely under the
precondition of at least one UV channel. -/
theorem ShaderModelDef_make_requires_uv (mdef : CModelDef) (a b : Nat) :
    (mdef.numUVsPerVertex = 0 →
      ShaderModelDef.make mdef a b =
        Except.error RenderFailure.oobAccess) ∧
    (exceptOk (ShaderModelDef.make mdef a b) = true ↔
      1 ≤ mdef.numUVsPerVertex) := by
  have herr : mdef.numUVsPerVertex = 0 →
      ShaderModelDef.make mdef a b =
        Except.error RenderFailure.oobAccess := by
    intro h0
    simp [ShaderModelDef.make, h0, makeVertexInputLayout, assignOffsets]
  refine ⟨herr, ?_, ?_⟩
  · intro hok
    by_contra hc
    rw [herr (by omega)] at hok
    simp [exceptOk] at hok
  · intro h1
    exact ShaderModelDef.make_isOk mdef a b h1

/-- Witness for C10: construction fails with the out-of-bounds access on
the zero-UV definition and succeeds on the one-UV example definition. -/
theorem ShaderModelDef_make_requires_uv_witness :
    (ShaderModelDef.make noUVDef 0 1 =
      Except.error RenderFailure.oobAccess) ∧
    (exceptOk (ShaderModelDef.make exampleDef 0 1) = true) :=
  ⟨(ShaderModelDef_make_requires_uv noUVDef 0 1).1 rfl,
    (ShaderModelDef_make_requires_uv exampleDef 0 1).2.mpr (by decide)⟩

/-- C2: for every definition with at least one UV channel, the constructed
`ShaderModelDef` has an index buffer sized to exactly `3 * numFaces`
indices and a static UV array with exactly `numVertices` 2-component
entries per channel. -/
theorem ShaderModelDef_make_sizes (mdef : CModelDef) (a b : Nat)
    (hUV : 1 ≤ mdef.numUVsPerVertex)
    (hF : mdef.numFaces * 3 < sizeTMod) :
    MakeSizesProp mdef a b := by
  have hok := makeVertexInputLayout_isOk
    (assignOffsets (List.replicate mdef.numUVsPerVertex
      (Attribute.mk Format.R32G32_SFLOAT 0))).snd
    (assignOffsets (List.replicate mdef.numUVsPerVertex
      (Attribute.mk Format.R32G32_SFLOAT 0))).fst
    mdef.numUVsPerVertex
    (by rw [assignOffsets_length, List.length_replicate]) hUV
  obtain ⟨l, hl⟩ := exceptOk_exists _ hok
  have hmk : ShaderModelDef.make mdef a b = Except.ok (ShaderModelDef.mk
      (assignOffsets (List.replicate mdef.numUVsPerVertex
        (Attribute.mk Format.R32G32_SFLOAT 0))).snd
      mdef.numVertices
      (assignOffsets (List.replicate mdef.numUVsPerVertex
        (Attribute.mk Format.R32G32_SFLOAT 0))).fst
      ((List.range mdef.numUVsPerVertex).map (fun ch => buildUV mdef ch))
      true a 0 ((mdef.numFaces * 3) % sizeTMod) (buildIndices mdef) true b 0
      l) := by
    simp only [ShaderModelDef.make]
    rw [hl]
  refine ⟨_, hmk, ?_, ?_, ?_, ?_, ?_, ?_, ?_⟩ <;> dsimp only
  · rw [Nat.mod_eq_of_lt hF, Nat.mul_comm]
  · unfold buildIndices
    exact range_flat3_length mdef.numFaces
  · simp
  · intro ch hch
    simp only [List.mem_map, List.mem_range] at hch
    obtain ⟨i, hmem, hi⟩ := hch
    rw [← hi]
    exact buildUV_length mdef i
  · rw [assignOffsets_length, List.length_replicate]
  · exact assignOffsets_format Format.R32G32_SFLOAT _
      (fun x hx => by rw [List.eq_of_mem_replicate hx])

/-- Witness for C2 at the 4-vertex, 2-face, 1-UV-channel example: index
buffer of 6 indices, one UV channel of 4 entries. -/
theorem ShaderModelDef_make_sizes_witness :
    1 ≤ exampleDef.numUVsPerVertex ∧ exampleDef.numFaces * 3 < sizeTMod ∧
    MakeSizesProp exampleDef 0 1 :=
  ⟨by decide, by decide,
    ShaderModelDef_make_sizes exampleDef 0 1 (by decide) (by decide)⟩

/-- C4: with the cached definition present, `UploadModelData` transfers
each of the three buffers (def UV array, def index array, instance dynamic
array) at most once, and an immediately repeated call with no intervening
modification transfers nothing and changes nothing. -/
theorem UploadModelData_idempotent (model : CModel) (data : ShaderModel)
    (s : RendererState) (d : ShaderModelDef) (h : s.defSlot = some d)
    (hab : d.arrayBufferId ≠ d.indexBufferId)
    (hac : d.arrayBufferId ≠ data.bufferId)
    (hbc : d.indexBufferId ≠ data.bufferId) :
    UploadIdemProp model data s := by
  refine ⟨{ s with defSlot := some { d with
        arrayPendingUpload := false, indexPendingUpload := false } },
    { data with
      pendingUpload := false,
      gpuContents := if data.pendingUpload then data.contents
        else data.gpuContents },
    (if d.arrayPendingUpload then
      [DeviceCommand.uploadBuffer d.arrayBufferId] else []) ++
      (if d.indexPendingUpload then
        [DeviceCommand.uploadBuffer d.indexBufferId] else []) ++
      (if data.pendingUpload then
        [DeviceCommand.uploadBuffer data.bufferId] else []),
    ?_, ?_, ?_⟩
  · simp [UploadModelData, h]
  · intro bid
    rcases hA : d.arrayPendingUpload <;> rcases hB : d.indexPendingUpload <;>
      rcases hC : data.pendingUpload <;>
        simp [hA, hB, hC, List.countP_cons, List.countP_nil] <;>
          split_ifs <;> omega
  · rfl

/-- Witness for C4 at the example fixtures (buffers 0, 1, 2, all marked
pending). -/
theorem UploadModelData_idempotent_witness :
    preparedState.defSlot = some exampleShaderDef ∧
    exampleShaderDef.arrayBufferId ≠ exampleShaderDef.indexBufferId ∧
    exampleShaderDef.arrayBufferId ≠ exampleData.bufferId ∧
    exampleShaderDef.indexBufferId ≠ exampleData.bufferId ∧
    UploadIdemProp exampleModel exampleData preparedState :=
  ⟨rfl, by decide, by decide, by decide,
    UploadModelData_idempotent exampleModel exampleData preparedState
      exampleShaderDef rfl (by decide) (by decide) (by decide)⟩

/-- C5: creating render data for two instances of the same definition from
an empty cache constructs exactly one `ShaderModelDef` (the second call
reuses the cached one) while returning two distinct instance objects with
distinct dynamic buffers. -/
theorem CreateModelData_cache_reuse (k1 k2 : Nat) (m1 m2 : CModel)
    (s : RendererState) (hdef : m2.mdef = m1.mdef)
    (hslot : s.defSlot = Option.none)
    (hUV : 1 ≤ m1.mdef.numUVsPerVertex) :
    CacheReuseProp k1 k2 m1 m2 s := by
  obtain ⟨d, hd⟩ := ShaderModelDef.make_some m1.mdef s.nextBufferId
    (s.nextBufferId + 1) hUV
  refine ⟨{ s with
      defSlot := some d,
      nextBufferId := s.nextBufferId + 2 + 1,
      defConstructions := s.defConstructions + 1 },
    buildShaderModel k1 m1.mdef (s.nextBufferId + 2),
    { s with
      defSlot := some d,
      nextBufferId := s.nextBufferId + 2 + 1 + 1,
      defConstructions := s.defConstructions + 1 },
    buildShaderModel k2 m2.mdef (s.nextBufferId + 2 + 1),
    ?_, ?_, rfl, rfl, rfl, ?_, ?_⟩
  · simp only [CreateModelData]
    rw [hslot, hd]
    simp [createModelDataAsserts_true]
  · simp only [CreateModelData]
    simp [createModelDataAsserts_true]
  · intro hcontra
    have h2 : s.nextBufferId + 2 = s.nextBufferId + 2 + 1 := hcontra
    omega
  · intro hcontra
    have h2 : s.nextBufferId + 2 = s.nextBufferId + 2 + 1 :=
      congrArg ShaderModel.bufferId hcontra
    omega

/-- Witness for C5: two instances of the example definition created from
the fresh renderer state. -/
theorem CreateModelData_cache_reuse_witness :
    exampleModel.mdef = exampleModel.mdef ∧
    initialState.defSlot = Option.none ∧
    1 ≤ exampleModel.mdef.numUVsPerVertex ∧
    CacheReuseProp 0 1 exampleModel exampleModel initialState :=
  ⟨rfl, rfl, by decide,
    CreateModelData_cache_reuse 0 1 exampleModel exampleModel initialState
      rfl rfl (by decide)⟩

/-- C9: no operation after construction mutates the cached
`ShaderModelDef`: `UploadModelData` preserves every construction-time field
(it only clears the transient pending-upload marks), and `PrepareModelDef`
and `RenderModel` leave the cached definition in the slot untouched;
`UpdateModelData` maps the instance data alone. -/
theorem ShaderModelDef_immutable (model : CModel) (data : ShaderModel)
    (s : RendererState) (d : ShaderModelDef) (h : s.defSlot = some d) :
    DefImmutableProp model data s d := by
  constructor
  · refine ⟨{ s with defSlot := some { d with
        arrayPendingUpload := false, indexPendingUpload := false } },
      { data with
        pendingUpload := false,
        gpuContents := if data.pendingUpload then data.contents
          else data.gpuContents },
      (if d.arrayPendingUpload then
        [DeviceCommand.uploadBuffer d.arrayBufferId] else []) ++
        (if d.indexPendingUpload then
          [DeviceCommand.uploadBuffer d.indexBufferId] else []) ++
        (if data.pendingUpload then
          [DeviceCommand.uploadBuffer data.bufferId] else []),
      ?_,
      { d with arrayPendingUpload := false, indexPendingUpload := false },
      rfl, rfl⟩
    simp [UploadModelData, h]
  constructor
  · refine ⟨{ s with preparedDef := some d },
      [DeviceCommand.setVertexInputLayout d.vertexInputLayout,
        DeviceCommand.setVertexBuffer 0 d.arrayBufferId
          (d.arrayOffset * d.arrayStride)], ?_, h⟩
    simp [PrepareModelDef, h]
  · intro d0 h0
    refine ⟨{ s with
        statsDrawCalls := s.statsDrawCalls + 1,
        statsModelTris := s.statsModelTris + model.mdef.numFaces },
      [DeviceCommand.setVertexBuffer 1 data.bufferId
          (data.bufferOffset * data.stride),
        DeviceCommand.setIndexBuffer d0.indexBufferId,
        DeviceCommand.drawIndexedInRange d0.indexOffset
          ((model.mdef.numFaces * 3) % sizeTMod) 0
          ((model.mdef.numVertices + (sizeTMod - 1)) % sizeTMod)],
      ?_, h, h0⟩
    simp [RenderModel, h0]

/-- Witness for C9 at the example fixtures. -/
theorem ShaderModelDef_immutable_witness :
    preparedState.defSlot = some exampleShaderDef ∧
    DefImmutableProp exampleModel exampleData preparedState
      exampleShaderDef :=
  ⟨rfl, ShaderModelDef_immutable exampleModel exampleData preparedState
    exampleShaderDef rfl⟩

/-- C7 counterexample: on the freshly constructed renderer state (null
`m->shadermodeldef`), `RenderModel` dereferences the null cached definition
directly — it fails with the unchecked null dereference, not with an
assertion halt, so not every null-cached-definition failure is enforced by
an assertion. -/
theorem RenderModel_null_no_assert_counterexample :
    RenderModel exampleModel exampleData initialState =
      Except.error RenderFailure.nullDeref ∧
    RenderModel exampleModel exampleData initialState ≠
      Except.error RenderFailure.assertFailure := by
  refine ⟨rfl, ?_⟩
  intro hbad
  simp [RenderModel, initialState] at hbad

/-- C7 as amended: a null cached definition is enforced by an `ENSURE`
assertion in `UploadModelData` and `PrepareModelDef`, but `RenderModel`
dereferences the renderer's cached pointer without any assertion (relying
on a prior successful `PrepareModelDef`). -/
theorem null_def_assertion_coverage (model : CModel) (data : ShaderModel)
    (s : RendererState) (hslot : s.defSlot = Option.none)
    (hprep : s.preparedDef = Option.none) :
    UploadModelData model data s =
      Except.error RenderFailure.assertFailure ∧
    PrepareModelDef s = Except.error RenderFailure.assertFailure ∧
    RenderModel model data s = Except.error RenderFailure.nullDeref := by
  refine ⟨?_, ?_, ?_⟩
  · simp [UploadModelData, hslot]
  · simp [PrepareModelDef, hslot]
  · simp [RenderModel, hprep]

/-- Witness for the amended C7 at the freshly constructed state. -/
theorem null_def_assertion_coverage_witness :
    initialState.defSlot = Option.none ∧
    initialState.preparedDef = Option.none ∧
    (UploadModelData exampleModel exampleData initialState =
      Except.error RenderFailure.assertFailure ∧
    PrepareModelDef initialState =
      Except.error RenderFailure.assertFailure ∧
    RenderModel exampleModel exampleData initialState =
      Except.error RenderFailure.nullDeref) :=
  ⟨rfl, rfl, null_def_assertion_coverage exampleModel exampleData
    initialState rfl rfl⟩

/-- C8 counterexample: the full create/update/upload/prepare/render
sequence on the zero-vertex definition (0 vertices, 1 face, 1 UV channel)
completes without any assertion and issues exactly one draw whose vertex
range upper bound is `2^64 - 1` — the `size_t` underflow of
`numVertices - 1` — so the contract violation is not caught by an
assertion. -/
theorem zero_vertices_no_assert_counterexample :
    exceptOk zeroPipeline = true ∧
    (match zeroPipeline with
      | Except.ok (_, cmds) =>
        cmds.countP (fun c => decide (c =
          DeviceCommand.drawIndexedInRange 0 3 0 (sizeTMod - 1)))
      | Except.error _ => 0) = 1 :=
  ⟨rfl, rfl⟩

/-- C8 as amended: no operation of the component asserts on the vertex
count; for any model whose definition reports zero vertices, `RenderModel`
proceeds and issues a draw whose vertex range upper bound is the `size_t`
underflow value `2^64 - 1`. -/
theorem RenderModel_zero_vertices_underflow (model : CModel)
    (data : ShaderModel) (s : RendererState) (d : ShaderModelDef)
    (hprep : s.preparedDef = some d)
    (hV : model.mdef.numVertices = 0) :
    RenderModel model data s =
      Except.ok ({ s with
          statsDrawCalls := s.statsDrawCalls + 1,
          statsModelTris := s.statsModelTris + model.mdef.numFaces },
        [DeviceCommand.setVertexBuffer 1 data.bufferId
            (data.bufferOffset * data.stride),
          DeviceCommand.setIndexBuffer d.indexBufferId,
          DeviceCommand.drawIndexedInRange d.indexOffset
            ((model.mdef.numFaces * 3) % sizeTMod) 0 (sizeTMod - 1)]) := by
  have hlt : sizeTMod - 1 < sizeTMod := by norm_num [sizeTMod]
  simp only [RenderModel, hprep, hV]
  rw [Nat.zero_add, Nat.mod_eq_of_lt hlt]

/-- Witness for the amended C8 at the zero-vertex model. -/
theorem RenderModel_zero_vertices_underflow_witness :
    preparedState.preparedDef = some exampleShaderDef ∧
    zeroVertexModel.mdef.numVertices = 0 ∧
    RenderModel zeroVertexModel exampleData preparedState =
      Except.ok (RendererState.mk (some exampleShaderDef)
          (some exampleShaderDef) 3 1 1 1,
        [DeviceCommand.setVertexBuffer 1 2 0,
          DeviceCommand.setIndexBuffer 1,
          DeviceCommand.drawIndexedInRange 0 3 0 (sizeTMod - 1)]) :=
  ⟨rfl, rfl,
    RenderModel_zero_vertices_underflow zeroVertexModel exampleData
      preparedState exampleShaderDef rfl rfl⟩

end HWLighting

